import Mathlib

/-!
Verification of the asm2wasm lifter and lowerer against its specification.

The development shallowly embeds the relevant C++ functions:
  * the lifter builder (src/src/assembly_lifter_core.cpp,
    assembly_lifter_instructions.cpp, assembly_lifter_control_flow.cpp,
    assembly_lifter_memory.cpp) as pure functions over an explicit builder
    state whose `ops` field records the LLVM instructions emitted into the
    current basic block, in order;
  * the function-discovery loop of the core `liftToLLVM`;
  * the verification tail of both `liftToLLVM` variants;
  * the CLI driver (src/src/main.cpp) output sequencing;
  * the lowerer's branch-depth precomputation and local-index lookup
    (src/src/wasm_generator.cpp).

Machine integers are modelled as `Int`; an `i32` cell is represented by its
signed value, and the arithmetic of the evaluator wraps explicitly with
`wrap32`.  Fallible C++ paths return sum types: a set `errorMessage_` plus
`false`/`nullptr` is an error-by-value constructor, a thrown C++ exception is
the `thrown` constructor, and passing `nullptr` into an LLVM builder call
(which aborts the process) is `crashed`.
-/

namespace Asm2Wasm

/-- Operand kinds, from include/assembly_parser.h. -/
inductive OperandType where
  | register
  | immediate
  | memory
  | label
deriving DecidableEq

/-- A parsed operand: kind plus surface text (registers keep the leading
percent sign, memory operands keep their parentheses). -/
structure Operand where
  ty : OperandType
  value : String
deriving DecidableEq

/-- Instruction opcodes, from include/assembly_parser.h.  The parser maps the
aliases JZ and JNZ to JE and JNE. -/
inductive InstructionType where
  | ADD | SUB | MUL | DIV
  | MOV | CMP
  | JMP | JE | JNE | JL | JG | JLE | JGE
  | CALL | RET
  | PUSH | POP
  | LABEL
deriving DecidableEq

/-- A parsed instruction: opcode, operand list and the optional attached
label (empty string when absent). -/
structure Instruction where
  ty : InstructionType
  operands : List Operand
  label : String := ""
deriving DecidableEq

/-- Placeholder operand used for out-of-range `getD` accesses; the embeddings
only read operands after the source's arity checks, so it is never seen. -/
def defaultOperand : Operand := ⟨OperandType.label, ""⟩

/-- Signed comparison predicates emitted by the lifter (CreateICmpEQ /
SLT / SGT / SLE / SGE, plus NE used by conditional jumps). -/
inductive IPred where
  | eqP | neP | sltP | sgtP | sleP | sgeP
deriving DecidableEq

/-- A value in the emitted IR: an i32 constant (llvm::ConstantInt), the
result of the n-th operation emitted into the current builder
(`IRVal.ref n`), or a basic-block reference. -/
inductive IRVal where
  | imm (n : Int)
  | ref (idx : Nat)
  | blockRef (name : String)
deriving DecidableEq

/-- Operations emitted by the lifter through the IRBuilder.  Register slots
are identified by their names; `loadSlot`/`storeSlot` act on a named alloca
slot, `loadPtr`/`storePtr` act through a pointer value produced by
`intToPtr`. -/
inductive IROp where
  | loadSlot (slot : String)
  | storeSlot (slot : String) (v : IRVal)
  | intToPtr (v : IRVal)
  | loadPtr (p : IRVal)
  | storePtr (p : IRVal) (v : IRVal)
  | addOp (a b : IRVal)
  | subOp (a b : IRVal)
  | mulOp (a b : IRVal)
  | sdivOp (a b : IRVal)
  | icmp (p : IPred) (a b : IRVal)
  | zext (v : IRVal)
  | condBr (c : IRVal) (t f : String)
  | br (t : String)
  | retOp (v : IRVal)
deriving DecidableEq

/-- The lifter builder state: the operations emitted into the current block
(in order; operation `i` is `ops[i]`), the register slots materialized so far
(`registers_`), the label blocks created so far (`blocks_`), the fallthrough
counter of the control-flow file, and the name of the current insertion
block.  The entry-block alloca that `getOrCreateRegister` creates for a new
slot is represented by membership in `registers`; allocas live in the entry
block, not in the current block's operation stream. -/
structure BuilderState where
  ops : List IROp
  registers : List String
  blocks : List String
  fallthroughCounter : Nat
  insertBlock : String
deriving DecidableEq

/-- The initial builder state of a fresh function entry block. -/
def st0 : BuilderState := ⟨[], [], [], 0, "main"⟩

/-- Emit one operation at the current insertion point and return the value it
produces (CreateLoad, CreateStore, CreateICmp..., each returns the new
instruction as a Value). -/
def emit (st : BuilderState) (op : IROp) : BuilderState × IRVal :=
  ({ st with ops := st.ops ++ [op] }, IRVal.ref st.ops.length)

/-- AssemblyLifter::getOrCreateRegister: reuse the recorded slot, or
materialize a fresh alloca in the entry block and record it. -/
def getOrCreateRegister (st : BuilderState) (regName : String) : BuilderState :=
  if regName ∈ st.registers then st
  else { st with registers := st.registers ++ [regName] }

/-- AssemblyLifter::getOrCreateBlock: reuse the block recorded for this
label, or create a block with the label's name in the current function and
record it.  The block handle is its name. -/
def getOrCreateBlock (st : BuilderState) (labelName : String) : BuilderState :=
  if labelName ∈ st.blocks then st
  else { st with blocks := st.blocks ++ [labelName] }

/-- Accumulate the value of a maximal decimal-digit prefix, stopping at the
first non-digit, as std::stoi does after sign handling. -/
def stoiDigits : Nat → List Char → Nat
  | acc, [] => acc
  | acc, c :: rest =>
      if c.isDigit then stoiDigits (acc * 10 + (c.toNat - 48)) rest else acc

/-- std::stoi on a character list: skip leading spaces, read an optional
sign, then require at least one digit; `none` models the thrown
std::invalid_argument when no digit is found.  (std::out_of_range for
values beyond int's range is not modelled; no claim here depends on it.) -/
def stoiChars (cs : List Char) : Option Int :=
  let cs := cs.dropWhile (fun c => c = ' ')
  match cs with
  | '-' :: rest =>
      match rest with
      | c :: _ => if c.isDigit then some (-(stoiDigits 0 rest : Int)) else none
      | [] => none
  | '+' :: rest =>
      match rest with
      | c :: _ => if c.isDigit then some ((stoiDigits 0 rest : Int)) else none
      | [] => none
  | c :: _ => if c.isDigit then some ((stoiDigits 0 cs : Int)) else none
  | [] => none

/-- std::stoi on a string. -/
def stoi (s : String) : Option Int := stoiChars s.data

/-- Outcome of a C++ function returning `llvm::Value *`:
`ok` is a non-null value, `nullWithMsg` is a null return with
`errorMessage_` set, `thrown` is a C++ exception escaping the call. -/
inductive ValueResult where
  | ok (st : BuilderState) (v : IRVal)
  | nullWithMsg (st : BuilderState) (msg : String)
  | thrown
deriving DecidableEq

/-- AssemblyLifter::calculateMemoryAddress, from
src/src/assembly_lifter_memory.cpp.  `addr` is the parenthesized content
(substr(1, length-2)).  The branch structure, the std::stoi calls (which
throw on non-numeric text), and the empty-string subscript semantics of
C++ (`s[0]` on an empty std::string reads the terminating NUL, which is
not a percent sign) are mirrored exactly. -/
def calculateMemoryAddress (st : BuilderState) (operand : Operand) : ValueResult :=
  let cs := operand.value.data
  let addr := (cs.drop 1).take (cs.length - 2)
  if addr.any (fun c => c = '+') then
    let basePart := addr.takeWhile (fun c => c ≠ '+')
    let offsetPart := (addr.dropWhile (fun c => c ≠ '+')).drop 1
    let stResult :=
      if basePart.head? = some '%' then
        let name := String.mk basePart
        let st := getOrCreateRegister st name
        let (st, v) := emit st (IROp.loadSlot name)
        (st, some v)
      else (st, (none : Option IRVal))
    let st1 := stResult.1
    let result1 := stResult.2
    if offsetPart.any (fun c => c = '*') then
      let indexRegStr := offsetPart.takeWhile (fun c => c ≠ '*')
      let scaleStr := (offsetPart.dropWhile (fun c => c ≠ '*')).drop 1
      if indexRegStr.head? = some '%' then
        let iname := String.mk indexRegStr
        let st2 := getOrCreateRegister st1 iname
        let (st2, idxv) := emit st2 (IROp.loadSlot iname)
        match stoiChars scaleStr with
        | none => ValueResult.thrown
        | some scale =>
          let (st3, scaled) := emit st2 (IROp.mulOp idxv (IRVal.imm scale))
          match result1 with
          | some r =>
              let (st4, v) := emit st3 (IROp.addOp r scaled)
              ValueResult.ok st4 v
          | none => ValueResult.ok st3 scaled
      else
        match result1 with
        | some v => ValueResult.ok st1 v
        | none =>
            ValueResult.nullWithMsg st1
              ("Failed to calculate memory address: " ++ operand.value)
    else if offsetPart.all (fun c => c.isDigit || c = '-' || c = '+') then
      match stoiChars offsetPart with
      | none => ValueResult.thrown
      | some offset =>
        match result1 with
        | some r =>
            let (st2, v) := emit st1 (IROp.addOp r (IRVal.imm offset))
            ValueResult.ok st2 v
        | none => ValueResult.ok st1 (IRVal.imm offset)
    else if offsetPart.head? = some '%' then
      let oname := String.mk offsetPart
      let st2 := getOrCreateRegister st1 oname
      let (st2, offv) := emit st2 (IROp.loadSlot oname)
      match result1 with
      | some r =>
          let (st3, v) := emit st2 (IROp.addOp r offv)
          ValueResult.ok st3 v
      | none => ValueResult.ok st2 offv
    else
      match result1 with
      | some v => ValueResult.ok st1 v
      | none =>
          ValueResult.nullWithMsg st1
            ("Failed to calculate memory address: " ++ operand.value)
  else if addr.any (fun c => c = '%') then
    let name := String.mk addr
    let st := getOrCreateRegister st name
    let (st, v) := emit st (IROp.loadSlot name)
    ValueResult.ok st v
  else
    match stoiChars addr with
    | none => ValueResult.thrown
    | some value => ValueResult.ok st (IRVal.imm value)

/-- AssemblyLifter::getOperandValue, from src/src/assembly_lifter_core.cpp:
load a register slot, build an i32 constant via std::stoi, compute a memory
address, or resolve a label to a block reference. -/
def getOperandValue (st : BuilderState) (operand : Operand) : ValueResult :=
  match operand.ty with
  | OperandType.register =>
      let st := getOrCreateRegister st operand.value
      let (st, v) := emit st (IROp.loadSlot operand.value)
      ValueResult.ok st v
  | OperandType.immediate =>
      match stoi operand.value with
      | none => ValueResult.thrown
      | some n => ValueResult.ok st (IRVal.imm n)
  | OperandType.memory => calculateMemoryAddress st operand
  | OperandType.label =>
      let st := getOrCreateBlock st operand.value
      ValueResult.ok st (IRVal.blockRef operand.value)

/-- Outcome of a `bool AssemblyLifter::lift...Instruction` call: `ok` is a
`true` return, `err` is a `false` return with `errorMessage_` set, `thrown`
is an escaping C++ exception, `crashed` is a null `llvm::Value *` handed to
an IRBuilder call (process abort). -/
inductive LiftResult where
  | ok (st : BuilderState)
  | err (st : BuilderState) (msg : String)
  | thrown
  | crashed
deriving DecidableEq

/-- The list of operations emitted by a successful lift call, if any. -/
def LiftResult.opsOf : LiftResult → Option (List IROp)
  | LiftResult.ok st => some st.ops
  | _ => none

/-- AssemblyLifter::liftMoveInstruction, from
src/src/assembly_lifter_instructions.cpp.  The source evaluates the second
operand first, then branches on the first operand's kind; note that the
register-destination branch stores the source value directly, so a memory
source reaching it stores the computed address, and that the later
`operands[1] == MEMORY` branch requires a register destination already
consumed by the first branch. -/
def liftMoveInstruction (st : BuilderState) (inst : Instruction) : LiftResult :=
  if inst.operands.length ≠ 2 then
    LiftResult.err st "MOV instruction requires 2 operands"
  else
    let op0 := inst.operands.getD 0 defaultOperand
    let op1 := inst.operands.getD 1 defaultOperand
    match getOperandValue st op1 with
    | ValueResult.thrown => LiftResult.thrown
    | ValueResult.nullWithMsg st1 _ =>
        LiftResult.err st1 "Failed to parse source operand"
    | ValueResult.ok st1 source =>
      if op0.ty = OperandType.register then
        let st2 := getOrCreateRegister st1 op0.value
        let (st3, _) := emit st2 (IROp.storeSlot op0.value source)
        LiftResult.ok st3
      else if op0.ty = OperandType.memory then
        match calculateMemoryAddress st1 op0 with
        | ValueResult.thrown => LiftResult.thrown
        | ValueResult.nullWithMsg _ _ => LiftResult.crashed
        | ValueResult.ok st2 memAddr =>
          let (st3, memPtr) := emit st2 (IROp.intToPtr memAddr)
          if op1.ty = OperandType.register then
            let st4 := getOrCreateRegister st3 op1.value
            let (st5, regValue) := emit st4 (IROp.loadSlot op1.value)
            let (st6, _) := emit st5 (IROp.storePtr memPtr regValue)
            LiftResult.ok st6
          else if op1.ty = OperandType.immediate then
            match getOperandValue st3 op1 with
            | ValueResult.thrown => LiftResult.thrown
            | ValueResult.nullWithMsg _ _ => LiftResult.crashed
            | ValueResult.ok st4 immValue =>
              let (st5, _) := emit st4 (IROp.storePtr memPtr immValue)
              LiftResult.ok st5
          else
            LiftResult.err st3
              "Source must be a register or immediate for memory destination MOV instruction"
      else if op1.ty = OperandType.memory then
        if op0.ty = OperandType.register then
          let st2 := getOrCreateRegister st1 op0.value
          let (st3, regValue) := emit st2 (IROp.loadSlot op0.value)
          match calculateMemoryAddress st3 op1 with
          | ValueResult.thrown => LiftResult.thrown
          | ValueResult.nullWithMsg _ _ => LiftResult.crashed
          | ValueResult.ok st4 memAddr =>
            let (st5, memPtr) := emit st4 (IROp.intToPtr memAddr)
            let (st6, _) := emit st5 (IROp.storePtr memPtr regValue)
            LiftResult.ok st6
        else
          LiftResult.err st1
            "Destination must be a register for memory access MOV instruction"
      else
        LiftResult.err st1 "MOV instruction destination must be a register or memory access"

/-- AssemblyLifter::setFlagRegister with the `FLAG_` prefix applied by
getFlagRegister (src/src/assembly_lifter_core.cpp). -/
def setFlagRegister (st : BuilderState) (flagName : String) (v : IRVal) : BuilderState :=
  let st := getOrCreateRegister st ("FLAG_" ++ flagName)
  (emit st (IROp.storeSlot ("FLAG_" ++ flagName) v)).1

/-- The fifteen operations a CMP appends after its two operands are
evaluated: five signed comparisons, then a zero-extension and a flag-slot
store for each, in source order.  `n` is the index of the first comparison
in the operation stream. -/
def cmpSuffix (l r : IRVal) (n : Nat) : List IROp :=
  [IROp.icmp IPred.eqP l r, IROp.icmp IPred.sltP l r, IROp.icmp IPred.sgtP l r,
   IROp.icmp IPred.sleP l r, IROp.icmp IPred.sgeP l r,
   IROp.zext (IRVal.ref n), IROp.storeSlot "FLAG_ZF" (IRVal.ref (n + 5)),
   IROp.zext (IRVal.ref (n + 1)), IROp.storeSlot "FLAG_LT" (IRVal.ref (n + 7)),
   IROp.zext (IRVal.ref (n + 2)), IROp.storeSlot "FLAG_GT" (IRVal.ref (n + 9)),
   IROp.zext (IRVal.ref (n + 3)), IROp.storeSlot "FLAG_LE" (IRVal.ref (n + 11)),
   IROp.zext (IRVal.ref (n + 4)), IROp.storeSlot "FLAG_GE" (IRVal.ref (n + 13))]

/-- AssemblyLifter::liftCompareInstruction, from
src/src/assembly_lifter_instructions.cpp.  Both operands are evaluated
before the null check, as in the source. -/
def liftCompareInstruction (st : BuilderState) (inst : Instruction) : LiftResult :=
  if inst.operands.length ≠ 2 then
    LiftResult.err st "CMP instruction requires 2 operands"
  else
    match getOperandValue st (inst.operands.getD 0 defaultOperand) with
    | ValueResult.thrown => LiftResult.thrown
    | ValueResult.nullWithMsg stL _ =>
        match getOperandValue stL (inst.operands.getD 1 defaultOperand) with
        | ValueResult.thrown => LiftResult.thrown
        | ValueResult.nullWithMsg stR _ =>
            LiftResult.err stR "Failed to parse CMP instruction operands"
        | ValueResult.ok stR _ =>
            LiftResult.err stR "Failed to parse CMP instruction operands"
    | ValueResult.ok stL left =>
      match getOperandValue stL (inst.operands.getD 1 defaultOperand) with
      | ValueResult.thrown => LiftResult.thrown
      | ValueResult.nullWithMsg stR _ =>
          LiftResult.err stR "Failed to parse CMP instruction operands"
      | ValueResult.ok stR right =>
        let (stA, cEq) := emit stR (IROp.icmp IPred.eqP left right)
        let (stB, cLt) := emit stA (IROp.icmp IPred.sltP left right)
        let (stC, cGt) := emit stB (IROp.icmp IPred.sgtP left right)
        let (stD, cLe) := emit stC (IROp.icmp IPred.sleP left right)
        let (stE, cGe) := emit stD (IROp.icmp IPred.sgeP left right)
        let (stF, zZf) := emit stE (IROp.zext cEq)
        let stG := setFlagRegister stF "ZF" zZf
        let (stH, zLt) := emit stG (IROp.zext cLt)
        let stI := setFlagRegister stH "LT" zLt
        let (stJ, zGt) := emit stI (IROp.zext cGt)
        let stK := setFlagRegister stJ "GT" zGt
        let (stL2, zLe) := emit stK (IROp.zext cLe)
        let stM := setFlagRegister stL2 "LE" zLe
        let (stN, zGe) := emit stM (IROp.zext cGe)
        let stO := setFlagRegister stN "GE" zGe
        LiftResult.ok stO

/-- The five operations shared by every POP: load STACK_PTR, cast it to a
pointer, load the stacked value through it, add 4, and store the bumped
pointer back.  `n` is the stream index of the first of them. -/
def popCommonOps (n : Nat) : List IROp :=
  [IROp.loadSlot "STACK_PTR",
   IROp.intToPtr (IRVal.ref n),
   IROp.loadPtr (IRVal.ref (n + 1)),
   IROp.addOp (IRVal.ref n) (IRVal.imm 4),
   IROp.storeSlot "STACK_PTR" (IRVal.ref (n + 3))]

/-- AssemblyLifter::liftStackInstruction, from
src/src/assembly_lifter_instructions.cpp.  POP loads through the synthetic
stack pointer and bumps it by 4; the popped value is stored only when the
operand is a register. -/
def liftStackInstruction (st : BuilderState) (inst : Instruction) : LiftResult :=
  if inst.ty = InstructionType.PUSH then
    if inst.operands.length ≠ 1 then
      LiftResult.err st "PUSH instruction requires 1 operand"
    else
      match getOperandValue st (inst.operands.getD 0 defaultOperand) with
      | ValueResult.thrown => LiftResult.thrown
      | ValueResult.nullWithMsg st1 _ =>
          LiftResult.err st1 "Failed to parse PUSH instruction operand"
      | ValueResult.ok st1 value =>
        let st2 := getOrCreateRegister st1 "STACK_PTR"
        let (st3, stackValue) := emit st2 (IROp.loadSlot "STACK_PTR")
        let (st4, newStackPtr) := emit st3 (IROp.subOp stackValue (IRVal.imm 4))
        let (st5, _) := emit st4 (IROp.storeSlot "STACK_PTR" newStackPtr)
        let (st6, stackAddr) := emit st5 (IROp.intToPtr newStackPtr)
        let (st7, _) := emit st6 (IROp.storePtr stackAddr value)
        LiftResult.ok st7
  else if inst.ty = InstructionType.POP then
    if inst.operands.length ≠ 1 then
      LiftResult.err st "POP instruction requires 1 operand"
    else
      let st1 := getOrCreateRegister st "STACK_PTR"
      let (st2, stackValue) := emit st1 (IROp.loadSlot "STACK_PTR")
      let (st3, stackAddr) := emit st2 (IROp.intToPtr stackValue)
      let (st4, value) := emit st3 (IROp.loadPtr stackAddr)
      let (st5, newStackPtr) := emit st4 (IROp.addOp stackValue (IRVal.imm 4))
      let (st6, _) := emit st5 (IROp.storeSlot "STACK_PTR" newStackPtr)
      if (inst.operands.getD 0 defaultOperand).ty = OperandType.register then
        let st7 := getOrCreateRegister st6 (inst.operands.getD 0 defaultOperand).value
        let (st8, _) := emit st7 (IROp.storeSlot (inst.operands.getD 0 defaultOperand).value value)
        LiftResult.ok st8
      else
        LiftResult.ok st6
  else
    LiftResult.ok st

/-- getFlagCond, the lambda inside liftJumpInstruction
(src/src/assembly_lifter_control_flow.cpp): load the flag slot and compare
it against zero, with ICmpNE when the branch fires on a non-zero flag and
ICmpEQ otherwise. -/
def getFlagCond (st : BuilderState) (name : String) (branchWhenNonZero : Bool) :
    BuilderState × IRVal :=
  let st := getOrCreateRegister st ("FLAG_" ++ name)
  let (st, v) := emit st (IROp.loadSlot ("FLAG_" ++ name))
  if branchWhenNonZero then emit st (IROp.icmp IPred.neP v (IRVal.imm 0))
  else emit st (IROp.icmp IPred.eqP v (IRVal.imm 0))

/-- AssemblyLifter::liftJumpInstruction, from
src/src/assembly_lifter_control_flow.cpp (the variant with numbered
fallthrough blocks).  Every conditional case creates a fresh
`fallthrough_<n>` block and continues there; note the successor order of
each CreateCondBr call: JNE passes the fallthrough block as the first
(condition-true) successor and the jump target as the second, while every
other conditional jump passes the target first. -/
def liftJumpInstruction (st : BuilderState) (inst : Instruction) : LiftResult :=
  if inst.operands.length ≠ 1 then
    LiftResult.err st "Jump instruction requires 1 operand"
  else
    let target := (inst.operands.getD 0 defaultOperand).value
    let st := getOrCreateBlock st target
    match inst.ty with
    | InstructionType.JMP =>
        let (st, _) := emit st (IROp.br target)
        LiftResult.ok { st with insertBlock := "cont" }
    | InstructionType.JE =>
        let ftName := "fallthrough_" ++ toString st.fallthroughCounter
        let st := { st with fallthroughCounter := st.fallthroughCounter + 1 }
        let (st, c) := getFlagCond st "ZF" true
        let (st, _) := emit st (IROp.condBr c target ftName)
        LiftResult.ok { st with insertBlock := ftName }
    | InstructionType.JNE =>
        let ftName := "fallthrough_" ++ toString st.fallthroughCounter
        let st := { st with fallthroughCounter := st.fallthroughCounter + 1 }
        let (st, c) := getFlagCond st "ZF" false
        let (st, _) := emit st (IROp.condBr c ftName target)
        LiftResult.ok { st with insertBlock := ftName }
    | InstructionType.JL =>
        let ftName := "fallthrough_" ++ toString st.fallthroughCounter
        let st := { st with fallthroughCounter := st.fallthroughCounter + 1 }
        let (st, c) := getFlagCond st "LT" true
        let (st, _) := emit st (IROp.condBr c target ftName)
        LiftResult.ok { st with insertBlock := ftName }
    | InstructionType.JG =>
        let ftName := "fallthrough_" ++ toString st.fallthroughCounter
        let st := { st with fallthroughCounter := st.fallthroughCounter + 1 }
        let (st, c) := getFlagCond st "GT" true
        let (st, _) := emit st (IROp.condBr c target ftName)
        LiftResult.ok { st with insertBlock := ftName }
    | InstructionType.JLE =>
        let ftName := "fallthrough_" ++ toString st.fallthroughCounter
        let st := { st with fallthroughCounter := st.fallthroughCounter + 1 }
        let (st, c) := getFlagCond st "LE" true
        let (st, _) := emit st (IROp.condBr c target ftName)
        LiftResult.ok { st with insertBlock := ftName }
    | InstructionType.JGE =>
        let ftName := "fallthrough_" ++ toString st.fallthroughCounter
        let st := { st with fallthroughCounter := st.fallthroughCounter + 1 }
        let (st, c) := getFlagCond st "GE" true
        let (st, _) := emit st (IROp.condBr c target ftName)
        LiftResult.ok { st with insertBlock := ftName }
    | _ => LiftResult.err st ""

/-- Execution state for an emitted operation stream: the contents of the
named register slots, the byte-addressed heap reached through int-to-ptr
casts, and the value produced by each already-executed operation (operation
`i` produced `vals[i]`).  An i32 cell is represented by its signed value. -/
structure ExecState where
  slots : String → Int
  heap : Int → Int
  vals : List Int

/-- Two's-complement wrap of an integer into the signed 32-bit range. -/
def wrap32 (n : Int) : Int := (n + 2 ^ 31) % 2 ^ 32 - 2 ^ 31

/-- Evaluate an `IRVal` against the values computed so far.  A block
reference has no integer value; it never feeds an executed operation. -/
def evalIRVal (m : ExecState) : IRVal → Int
  | IRVal.imm n => n
  | IRVal.ref i => m.vals.getD i 0
  | IRVal.blockRef _ => 0

/-- The signed comparison predicates on i32 values. -/
def evalPred : IPred → Int → Int → Bool
  | IPred.eqP, a, b => a = b
  | IPred.neP, a, b => a ≠ b
  | IPred.sltP, a, b => a < b
  | IPred.sgtP, a, b => b < a
  | IPred.sleP, a, b => a ≤ b
  | IPred.sgeP, a, b => b ≤ a

/-- Execute one operation: every operation appends exactly one entry to
`vals` (LLVM instructions are values; stores and branches are never
referenced, so their entry is immaterial). -/
def execOp (m : ExecState) (op : IROp) : ExecState :=
  match op with
  | IROp.loadSlot s => { m with vals := m.vals ++ [m.slots s] }
  | IROp.storeSlot s v =>
      { m with slots := fun t => if t = s then evalIRVal m v else m.slots t,
               vals := m.vals ++ [0] }
  | IROp.intToPtr v => { m with vals := m.vals ++ [evalIRVal m v] }
  | IROp.loadPtr p => { m with vals := m.vals ++ [m.heap (evalIRVal m p)] }
  | IROp.storePtr p v =>
      { m with heap := fun a => if a = evalIRVal m p then evalIRVal m v else m.heap a,
               vals := m.vals ++ [0] }
  | IROp.addOp a b => { m with vals := m.vals ++ [wrap32 (evalIRVal m a + evalIRVal m b)] }
  | IROp.subOp a b => { m with vals := m.vals ++ [wrap32 (evalIRVal m a - evalIRVal m b)] }
  | IROp.mulOp a b => { m with vals := m.vals ++ [wrap32 (evalIRVal m a * evalIRVal m b)] }
  | IROp.sdivOp a b => { m with vals := m.vals ++ [wrap32 (Int.tdiv (evalIRVal m a) (evalIRVal m b))] }
  | IROp.icmp p a b =>
      { m with vals := m.vals ++ [if evalPred p (evalIRVal m a) (evalIRVal m b) then 1 else 0] }
  | IROp.zext v => { m with vals := m.vals ++ [evalIRVal m v] }
  | IROp.condBr _ _ _ => { m with vals := m.vals ++ [0] }
  | IROp.br _ => { m with vals := m.vals ++ [0] }
  | IROp.retOp _ => { m with vals := m.vals ++ [0] }

/-- Execute a stream of operations in order. -/
def execOps (m : ExecState) (ops : List IROp) : ExecState :=
  ops.foldl execOp m

/-- The successor a block transfers control to, when its last operation is a
conditional branch: LLVM's CreateCondBr takes the condition-true successor
first.  The condition is evaluated after executing the preceding
operations. -/
def takenSuccessor (env : String → Int) (heap : Int → Int) (ops : List IROp) :
    Option String :=
  match ops.getLast? with
  | some (IROp.condBr c t f) =>
      some (if evalIRVal (execOps ⟨env, heap, []⟩ ops.dropLast) c ≠ 0 then t else f)
  | _ => none

/-- The block a lifted conditional jump transfers control to when the flag
slots hold the values given by `env`: lift the jump from a fresh builder,
then resolve its conditional branch. -/
def jumpTaken (jty : InstructionType) (target : String) (env : String → Int) :
    Option String :=
  match liftJumpInstruction st0 ⟨jty, [⟨OperandType.label, target⟩], ""⟩ with
  | LiftResult.ok st => takenSuccessor env (fun _ => 0) st.ops
  | _ => none

/-!  The verification tail of the two `liftToLLVM` implementations.
`broken f = true` models `llvm::verifyFunction(f, ...)` reporting that
function `f` is ill-formed. -/

/-- The per-function verification loop at the end of the core
`liftToLLVM` (src/src/assembly_lifter_core.cpp, lines 130-146): when
verifyFunction reports a violation, the loop only renders a module dump
into a local string that is then dropped; it neither records an error nor
stops, and the surrounding function returns true regardless. -/
def liftToLLVMVerifyLoopCore (broken : String → Bool) : List String → Bool
  | [] => true
  | f :: rest =>
      if broken f then
        -- the source builds `moduleDump` here and discards it
        liftToLLVMVerifyLoopCore broken rest
      else
        liftToLLVMVerifyLoopCore broken rest

/-- The return value of the core `liftToLLVM` once instruction processing
is done: `liftLoopOk` is whether every per-instruction lift succeeded
(every `return false` of the function lives in that loop); afterwards the
close-out and the verification loop run and the function returns the
verification loop's result. -/
def liftToLLVMCoreReturn (liftLoopOk : Bool) (broken : String → Bool)
    (fns : List String) : Bool :=
  if liftLoopOk then liftToLLVMVerifyLoopCore broken fns else false

/-- The corresponding loop of the older `liftToLLVM`
(src/src/assembly_lifter.cpp, lines 100-118), which does surface the
violation: `brokenMsg f = some e` models verifyFunction failing on `f`
with message `e`. -/
def liftToLLVMVerifyLoopOld (brokenMsg : String → Option String) :
    List String → Except String Unit
  | [] => Except.ok ()
  | f :: rest =>
      match brokenMsg f with
      | some e => Except.error ("IR verification error: " ++ e)
      | none => liftToLLVMVerifyLoopOld brokenMsg rest

/-!  The CLI driver, src/src/main.cpp. -/

/-- Which output files exist on disk after a run. -/
structure FilesWritten where
  wasm : Bool
  wat : Bool
deriving DecidableEq

/-- The pipeline of `main` after argument parsing (argument errors exit 1
before any component runs and write nothing): parse, lift, generate, then
write the binary and afterwards the text file.  `wasmFlagGiven` and
`watFlagGiven` are whether `--wasm`/`--wast` were passed; with neither,
both outputs are derived from the input name.  `wasmOpenOk`/`watOpenOk`
model whether the corresponding output stream opens (writeWasmToFile and
writeWastToFile fail only on a failed open, before creating the file).
Returns the exit code and the files left on disk. -/
def mainRun (parseOk liftOk genOk wasmOpenOk watOpenOk wasmFlagGiven watFlagGiven : Bool) :
    Nat × FilesWritten :=
  let doWasm := wasmFlagGiven || (!wasmFlagGiven && !watFlagGiven)
  let doWat := watFlagGiven || (!wasmFlagGiven && !watFlagGiven)
  if !parseOk then (1, ⟨false, false⟩)
  else if !liftOk then (1, ⟨false, false⟩)
  else if !genOk then (1, ⟨false, false⟩)
  else
    if doWasm then
      if !wasmOpenOk then (1, ⟨false, false⟩)
      else if doWat then
        if !watOpenOk then (1, ⟨true, false⟩) else (0, ⟨true, true⟩)
      else (0, ⟨true, false⟩)
    else
      if doWat then
        if !watOpenOk then (1, ⟨false, false⟩) else (0, ⟨false, true⟩)
      else (0, ⟨false, false⟩)

/-!  Function discovery, the per-instruction loop of the core
`liftToLLVM` (src/src/assembly_lifter_core.cpp, lines 24-93). -/

/-- What the discovery loop does for one instruction. -/
inductive DiscoveryEvent where
  | newFunction (name : String) (entryBlock : String)
  | newBlock (name : String)
deriving DecidableEq

/-- The loop state the discovery decisions depend on: the `isFirstLabel`
flag and whether `currentFunc` is non-null. -/
structure DiscState where
  isFirstLabel : Bool
  hasCurrentFunc : Bool
deriving DecidableEq

/-- The call-sink prescan: labels appearing as the single label operand of
some CALL. -/
def callTargets (instrs : List Instruction) : List String :=
  instrs.filterMap fun i =>
    if i.ty = InstructionType.CALL ∧ i.operands.length = 1 ∧
        (i.operands.getD 0 defaultOperand).ty = OperandType.label then
      some (i.operands.getD 0 defaultOperand).value
    else none

/-- The condition under which a label starts a new function
(assembly_lifter_core.cpp, line 46). -/
def functionStartCond (cts : List String) (isFirstLabel : Bool) (name : String) : Bool :=
  name = "main" || name = "start" || cts.contains name || isFirstLabel

/-- The discovery event of one instruction: a function-starting label opens
a function whose entry block bears the label's own name; any other label
opens (or re-enters) a block of the current function; an unlabelled
instruction with no function open yet opens function `main` with an entry
block named `main` (line 84); otherwise nothing happens. -/
def stepEvent (cts : List String) (s : DiscState) (inst : Instruction) :
    Option DiscoveryEvent :=
  if inst.label ≠ "" then
    if functionStartCond cts s.isFirstLabel inst.label then
      some (DiscoveryEvent.newFunction inst.label inst.label)
    else some (DiscoveryEvent.newBlock inst.label)
  else if !s.hasCurrentFunc && s.isFirstLabel then
    some (DiscoveryEvent.newFunction "main" "main")
  else none

/-- The discovery state after one instruction.  In the non-function label
branch the source leaves `isFirstLabel` untouched and guarantees a current
function (its `!currentFunc` fallback creates `main`, though that guard is
unreachable from the initial state). -/
def nextState (cts : List String) (s : DiscState) (inst : Instruction) : DiscState :=
  if inst.label ≠ "" then
    if functionStartCond cts s.isFirstLabel inst.label then ⟨false, true⟩
    else ⟨s.isFirstLabel, true⟩
  else if !s.hasCurrentFunc && s.isFirstLabel then ⟨false, true⟩
  else s

/-- The discovery events of an instruction list, one per instruction,
threading the loop state. -/
def eventsFrom (cts : List String) (s : DiscState) :
    List Instruction → List (Option DiscoveryEvent)
  | [] => []
  | i :: rest => stepEvent cts s i :: eventsFrom cts (nextState cts s i) rest

/-- The discovery events of a whole instruction stream: prescan for call
sinks, then run the loop from the initial state (`isFirstLabel` true, no
current function). -/
def discoverEvents (instrs : List Instruction) : List (Option DiscoveryEvent) :=
  eventsFrom (callTargets instrs) ⟨true, false⟩ instrs

/-- The index of the first instruction carrying a label, when any. -/
def firstLabelIdx (instrs : List Instruction) : Option Nat :=
  instrs.findIdx? fun i => !(i.label == "")

/-!  The lowerer, src/src/wasm_generator.cpp. -/

/-- A lowered-function basic-block terminator; branch targets are the
positions the targets occupy in the function's block order (the source maps
block pointers through `blockPositions`). -/
inductive WTerm where
  | brT (target : Nat)
  | condBrT (t f : Nat)
  | retT
deriving DecidableEq

/-- Stack-machine opcodes needed here (WasmOpcode in the source). -/
inductive WasmOpcodeK where
  | BR
  | BR_IF
  | GET_LOCAL
  | SET_LOCAL
  | I32_CONST
deriving DecidableEq

/-- A lowered instruction: opcode plus integer operands. -/
structure WasmInstruction where
  opcode : WasmOpcodeK
  operands : List Nat
deriving DecidableEq

/-- The depth WasmGenerator::convertFunction precomputes into `blockMap_`
for the block at position `p` (lines 195-223): only when the block ends in
an unconditional branch whose target position exceeds `p + 1`, and then the
counting loop `for (i = currentPos + 1; i < targetPos; ++i) depth++`
yields `targetPos - currentPos - 1`. -/
def branchDepthEntry (blocks : List WTerm) (p : Nat) : Option Nat :=
  match blocks[p]? with
  | some (WTerm.brT t) => if p + 1 < t then some (t - (p + 1)) else none
  | _ => none

/-- What WasmGenerator::convertBranchInstruction emits for the
unconditional branch ending the block at position `p` (lines 482-491): a
`br` with the precomputed depth when `blockMap_` has an entry for the
block, and nothing at all otherwise. -/
def emitUncondBr (blocks : List WTerm) (p : Nat) : List WasmInstruction :=
  match branchDepthEntry blocks p with
  | some d => [⟨WasmOpcodeK.BR, [d]⟩]
  | none => []

/-- The number of block positions strictly between position `p` and
position `t`, as the specification counts branch depth. -/
def countBetween (p t : Nat) : Nat := ((List.range t).filter (fun j => p < j)).length

/-- WasmGenerator::getLocalIndex (lines 805-814): a plain map lookup that
substitutes index 0 when the value was never assigned a local. -/
def getLocalIndex (localMap : List (Nat × Nat)) (v : Nat) : Nat :=
  match localMap.lookup v with
  | some idx => idx
  | none => 0

/-- WasmGenerator::convertPhiInstruction (lines 816-825): push the local
assigned to the phi — via the total `getLocalIndex` — and succeed. -/
def convertPhiInstruction (localMap : List (Nat × Nat)) (phi : Nat) :
    Bool × List WasmInstruction :=
  (true, [⟨WasmOpcodeK.GET_LOCAL, [getLocalIndex localMap phi]⟩])

/-!  Helper lemmas about the builder primitives, and sanity checks of the
embeddings on concrete inputs. -/

@[simp] theorem emit_fst_ops (st : BuilderState) (op : IROp) :
    (emit st op).1.ops = st.ops ++ [op] := rfl

@[simp] theorem emit_snd (st : BuilderState) (op : IROp) :
    (emit st op).2 = IRVal.ref st.ops.length := rfl

@[simp] theorem getOrCreateRegister_ops (st : BuilderState) (r : String) :
    (getOrCreateRegister st r).ops = st.ops := by
  unfold getOrCreateRegister; split <;> rfl

@[simp] theorem getOrCreateBlock_ops (st : BuilderState) (b : String) :
    (getOrCreateBlock st b).ops = st.ops := by
  unfold getOrCreateBlock; split <;> rfl

@[simp] theorem getOrCreateRegister_fallthroughCounter (st : BuilderState) (r : String) :
    (getOrCreateRegister st r).fallthroughCounter = st.fallthroughCounter := by
  unfold getOrCreateRegister; split <;> rfl

@[simp] theorem getOrCreateBlock_fallthroughCounter (st : BuilderState) (b : String) :
    (getOrCreateBlock st b).fallthroughCounter = st.fallthroughCounter := by
  unfold getOrCreateBlock; split <;> rfl

@[simp] theorem setFlagRegister_ops (st : BuilderState) (f : String) (v : IRVal) :
    (setFlagRegister st f v).ops = st.ops ++ [IROp.storeSlot ("FLAG_" ++ f) v] := by
  simp [setFlagRegister]

example : stoi "100" = some 100 := by decide
example : stoi "-42" = some (-42) := by decide
example : stoi "foo" = none := by decide
example : stoi "" = none := by decide
example : stoi "12abc" = some 12 := by decide

example :
    calculateMemoryAddress st0 ⟨OperandType.memory, "(100)"⟩ =
      ValueResult.ok st0 (IRVal.imm 100) := by decide

example :
    calculateMemoryAddress st0 ⟨OperandType.memory, "(%eax)"⟩ =
      ValueResult.ok ⟨[IROp.loadSlot "%eax"], ["%eax"], [], 0, "main"⟩ (IRVal.ref 0) := by
  decide

example :
    calculateMemoryAddress st0 ⟨OperandType.memory, "(%eax+8)"⟩ =
      ValueResult.ok ⟨[IROp.loadSlot "%eax", IROp.addOp (IRVal.ref 0) (IRVal.imm 8)],
        ["%eax"], [], 0, "main"⟩ (IRVal.ref 1) := by decide

example :
    calculateMemoryAddress st0 ⟨OperandType.memory, "(%eax+%ebx*4)"⟩ =
      ValueResult.ok ⟨[IROp.loadSlot "%eax", IROp.loadSlot "%ebx",
          IROp.mulOp (IRVal.ref 1) (IRVal.imm 4),
          IROp.addOp (IRVal.ref 0) (IRVal.ref 2)],
        ["%eax", "%ebx"], [], 0, "main"⟩ (IRVal.ref 3) := by decide

example :
    liftMoveInstruction st0
      ⟨InstructionType.MOV, [⟨OperandType.register, "%eax"⟩, ⟨OperandType.immediate, "42"⟩], ""⟩
    = LiftResult.ok ⟨[IROp.storeSlot "%eax" (IRVal.imm 42)], ["%eax"], [], 0, "main"⟩ := by
  decide

example :
    liftJumpInstruction st0 ⟨InstructionType.JNE, [⟨OperandType.label, "L"⟩], ""⟩ =
      LiftResult.ok ⟨[IROp.loadSlot "FLAG_ZF",
          IROp.icmp IPred.eqP (IRVal.ref 0) (IRVal.imm 0),
          IROp.condBr (IRVal.ref 1) "fallthrough_0" "L"],
        ["FLAG_ZF"], ["L"], 1, "fallthrough_0"⟩ := by decide

example : jumpTaken InstructionType.JE "L" (fun _ => 1) = some "L" := by decide
example : jumpTaken InstructionType.JE "L" (fun _ => 0) = some "fallthrough_0" := by decide

/-!  Claim theorems. -/

/-- C1: contrary to the claim, a lifted JNE transfers control to the named
target block exactly when the ZF flag slot is non-zero, and continues in the
fresh `fallthrough_0` block when ZF equals 0 — both copies of
liftJumpInstruction pass the fallthrough block as the condition-true
successor of `CreateCondBr(ZF == 0, ...)`, so JNE behaves like JE.  Here,
with ZF = 0 the fallthrough is taken, and with ZF = 1 the target is
taken. -/
theorem jne_takes_target_on_nonzero_zf :
    jumpTaken InstructionType.JNE "L" (fun _ => 0) = some "fallthrough_0" ∧
    jumpTaken InstructionType.JNE "L" (fun _ => 1) = some "L" ∧
    ("fallthrough_0" : String) ≠ "L" := by decide

/-- C3: contrary to the claim, the core `liftToLLVM` returns true whenever
the per-instruction loop succeeded, no matter what the per-function
verification loop observes: the loop body only renders a dump string and
discards it, so an ill-formed function never turns the result into
false. -/
theorem liftToLLVM_core_ignores_verification :
    ∀ (broken : String → Bool) (fns : List String),
      liftToLLVMCoreReturn true broken fns = true := by
  intro broken fns
  unfold liftToLLVMCoreReturn
  simp only [if_pos]
  induction fns with
  | nil => rfl
  | cons f rest ih => unfold liftToLLVMVerifyLoopCore; split <;> exact ih

/-- C4 counterexample: a run in which the parser, lifter and lowerer all
succeed, the `.wasm` write succeeds and the `.wat` write then fails, exits
with code 1 while the `.wasm` file is already on disk — a partial output,
contradicting the claim that a failing run writes no file. -/
theorem failed_wat_write_leaves_wasm :
    mainRun true true true true false false false = (1, ⟨true, false⟩) ∧
    (FilesWritten.mk true false) ≠ (FilesWritten.mk false false) := by decide

/-- C4 (amended): every failing run exits with code 1; a parser, lifter or
lowerer failure writes nothing; a failing run never leaves a `.wat` file;
and the only way a failing run leaves a file behind is the `.wasm` write
succeeding before the `.wat` write fails. -/
theorem cli_error_output_discipline :
    ∀ p l g wo wato wf watf : Bool,
      ((p = false ∨ l = false ∨ g = false) →
          mainRun p l g wo wato wf watf = (1, ⟨false, false⟩)) ∧
      ((mainRun p l g wo wato wf watf).1 ≠ 0 →
          (mainRun p l g wo wato wf watf).2.wat = false) ∧
      ((mainRun p l g wo wato wf watf).1 ≠ 0 →
          (mainRun p l g wo wato wf watf).2.wasm = true →
          p = true ∧ l = true ∧ g = true ∧ wo = true ∧ wato = false ∧
            mainRun p l g wo wato wf watf = (1, ⟨true, false⟩)) ∧
      ((mainRun p l g wo wato wf watf).1 = 0 ∨ (mainRun p l g wo wato wf watf).1 = 1) := by
  decide

/-- C4 witness: a run with a failing parser exits 1 with no file written. -/
theorem cli_error_output_discipline_witness :
    mainRun false true true true true false false = (1, ⟨false, false⟩) :=
  (cli_error_output_discipline false true true true true false false).1 (Or.inl rfl)

/-- C8: contrary to the claim, a memory operand whose parenthesized content
matches none of the five address forms can make `calculateMemoryAddress`
throw: for `(foo)` the final branch feeds the non-numeric text to
`std::stoi`, and for `(%eax+)` the empty offset passes the all-digits test
and is fed to `std::stoi`, which throws std::invalid_argument in both
cases instead of setting the by-value error. -/
theorem bad_address_throws :
    calculateMemoryAddress st0 ⟨OperandType.memory, "(foo)"⟩ = ValueResult.thrown ∧
    calculateMemoryAddress st0 ⟨OperandType.memory, "(%eax+)"⟩ = ValueResult.thrown ∧
    calculateMemoryAddress st0 ⟨OperandType.memory, "(x+y)"⟩ =
      ValueResult.nullWithMsg st0 "Failed to calculate memory address: (x+y)" := by
  decide

/-- C10: looking up the local index of a value that was never assigned one
is total and yields 0, and the phi conversion that relies on it succeeds,
emitting `local.get 0` for such a value. -/
theorem getLocalIndex_unassigned_is_zero (localMap : List (Nat × Nat)) (v : Nat)
    (h : localMap.lookup v = none) :
    getLocalIndex localMap v = 0 ∧
    convertPhiInstruction localMap v = (true, [⟨WasmOpcodeK.GET_LOCAL, [0]⟩]) := by
  simp [getLocalIndex, convertPhiInstruction, h]

/-- C10 witness: an empty local map assigns index 0 to value 5. -/
theorem getLocalIndex_unassigned_is_zero_witness :
    getLocalIndex [] 5 = 0 ∧
    convertPhiInstruction [] 5 = (true, [⟨WasmOpcodeK.GET_LOCAL, [0]⟩]) :=
  getLocalIndex_unassigned_is_zero [] 5 rfl

theorem countBetween_eq (p t : Nat) : countBetween p t = t - (p + 1) := by
  induction t with
  | zero => simp [countBetween]
  | succ t ih =>
      by_cases h : p < t
      · simp [countBetween, List.range_succ, List.filter_append, h] at ih ⊢
        omega
      · simp [countBetween, List.range_succ, List.filter_append, h] at ih ⊢
        omega

/-- C7 counterexample: a backward unconditional branch — block 1 branching
to block 0, with no block strictly between them — is not emitted at all:
`convertFunction` records a depth only when the target position exceeds the
branch position plus one, and `convertBranchInstruction` emits nothing when
the block has no recorded depth, while the claim requires a `br 0` (the
target, position 0, is not the physical successor of position 1). -/
theorem backward_branch_emits_nothing :
    emitUncondBr [WTerm.retT, WTerm.brT 0] 1 = [] ∧
    ([] : List WasmInstruction) ≠ [⟨WasmOpcodeK.BR, [countBetween 1 0]⟩] ∧
    (0 : Nat) ≠ 1 + 1 := by decide

/-- C7 (amended): for an unconditional branch whose target position lies
strictly beyond the physical successor, the lowerer emits a `br` whose
depth equals the number of blocks strictly between the branching block and
the target; for any other target — the physical successor, the block
itself, or any earlier block — it emits no branch instruction at all. -/
theorem uncond_branch_depth (blocks : List WTerm) (p t : Nat)
    (h : blocks[p]? = some (WTerm.brT t)) :
    (p + 1 < t → emitUncondBr blocks p = [⟨WasmOpcodeK.BR, [countBetween p t]⟩]) ∧
    (t ≤ p + 1 → emitUncondBr blocks p = []) := by
  constructor <;> intro h2
  · simp [emitUncondBr, branchDepthEntry, h, h2, countBetween_eq]
  · simp [emitUncondBr, branchDepthEntry, h, Nat.not_lt_of_le h2]

/-- C7 witness: a branch from block 0 over block 1 to block 2 is emitted as
`br` with depth `countBetween 0 2 = 1`. -/
theorem uncond_branch_depth_witness :
    emitUncondBr [WTerm.brT 2, WTerm.retT, WTerm.retT] 0 =
      [⟨WasmOpcodeK.BR, [countBetween 0 2]⟩] :=
  (uncond_branch_depth [WTerm.brT 2, WTerm.retT, WTerm.retT] 0 2 rfl).1 (by decide)

/-- C9: a POP whose single operand is not a register succeeds and emits
exactly the five shared operations — load STACK_PTR, cast, load the stacked
value, add 4, store STACK_PTR back — which are precisely the operations a
register-destination POP emits before its final store into the destination
slot; the only slot stored among them is STACK_PTR, so the loaded value is
discarded and no destination slot is written. -/
theorem pop_nonregister_discards_value (st : BuilderState) (o : Operand)
    (lbl : String) (r : String) (h : o.ty ≠ OperandType.register) :
    (liftStackInstruction st ⟨InstructionType.POP, [o], lbl⟩).opsOf =
      some (st.ops ++ popCommonOps st.ops.length) ∧
    (liftStackInstruction st ⟨InstructionType.POP, [⟨OperandType.register, r⟩], lbl⟩).opsOf =
      some (st.ops ++ popCommonOps st.ops.length ++
        [IROp.storeSlot r (IRVal.ref (st.ops.length + 2))]) ∧
    (∀ s v, IROp.storeSlot s v ∈ popCommonOps st.ops.length → s = "STACK_PTR") := by
  refine ⟨?_, ?_, ?_⟩
  · simp [liftStackInstruction, LiftResult.opsOf, popCommonOps, h]
  · simp [liftStackInstruction, LiftResult.opsOf, popCommonOps]
  · intro s v hmem
    simp [popCommonOps] at hmem
    exact hmem.1

/-- C9 witness: a POP of an immediate operand emits exactly the five shared
operations from a fresh builder. -/
theorem pop_nonregister_discards_value_witness :
    (liftStackInstruction st0 ⟨InstructionType.POP, [⟨OperandType.immediate, "7"⟩], ""⟩).opsOf =
      some (st0.ops ++ popCommonOps st0.ops.length) :=
  (pop_nonregister_discards_value st0 ⟨OperandType.immediate, "7"⟩ "" "%eax"
    (by decide)).1

/-- C2 counterexample: lifting `MOV %eax, (100)` emits a single operation —
a store of the constant 100, the computed address itself, into the slot of
`%eax` — with no int-to-ptr cast and no load anywhere in the stream,
contradicting the claimed cast-load-store sequence: the register-destination
branch of liftMoveInstruction stores the raw result of getOperandValue,
which for a memory operand is the address. -/
theorem mov_reg_from_mem_emits_no_load :
    liftMoveInstruction st0
        ⟨InstructionType.MOV,
          [⟨OperandType.register, "%eax"⟩, ⟨OperandType.memory, "(100)"⟩], ""⟩ =
      LiftResult.ok ⟨[IROp.storeSlot "%eax" (IRVal.imm 100)], ["%eax"], [], 0, "main"⟩ ∧
    ([IROp.storeSlot "%eax" (IRVal.imm 100)].all fun op =>
        match op with
        | IROp.loadPtr _ => false
        | IROp.intToPtr _ => false
        | _ => true) = true := by decide

/-- C2 (amended): for every MOV whose destination is a register and whose
source is a memory operand whose address evaluates successfully, the lifter
computes the address per the §4.1 grammar and then stores the computed
address value itself into the destination register's slot — it emits no
pointer cast and no load from that address. -/
theorem mov_reg_from_mem_stores_address (st st1 : BuilderState) (r m lbl : String)
    (v : IRVal)
    (h : getOperandValue st ⟨OperandType.memory, m⟩ = ValueResult.ok st1 v) :
    (liftMoveInstruction st
        ⟨InstructionType.MOV,
          [⟨OperandType.register, r⟩, ⟨OperandType.memory, m⟩], lbl⟩).opsOf =
      some (st1.ops ++ [IROp.storeSlot r v]) := by
  simp [liftMoveInstruction, h, LiftResult.opsOf]

/-- C2 witness: `MOV %eax, (8)` stores the constant address 8 into the
slot of `%eax`. -/
theorem mov_reg_from_mem_stores_address_witness :
    (liftMoveInstruction st0
        ⟨InstructionType.MOV,
          [⟨OperandType.register, "%eax"⟩, ⟨OperandType.memory, "(8)"⟩], ""⟩).opsOf =
      some (st0.ops ++ [IROp.storeSlot "%eax" (IRVal.imm 8)]) :=
  mov_reg_from_mem_stores_address st0 st0 "%eax" "(8)" "" (IRVal.imm 8) (by decide)

theorem nextState_init (cts : List String) (i : Instruction) :
    nextState cts ⟨true, false⟩ i = ⟨false, true⟩ := by
  simp [nextState, functionStartCond]

theorem nextState_steady (cts : List String) (i : Instruction) :
    nextState cts ⟨false, true⟩ i = ⟨false, true⟩ := by
  simp [nextState]

theorem eventsFrom_steady (cts : List String) (l : List Instruction) :
    eventsFrom cts ⟨false, true⟩ l = l.map (stepEvent cts ⟨false, true⟩) := by
  induction l with
  | nil => rfl
  | cons i rest ih => simp [eventsFrom, nextState_steady, ih]

/-- An instruction stream showing the discovery policy deviating from the
claim: an unlabelled first instruction, then the first label of the
stream. -/
def exDiscovery : List Instruction :=
  [⟨InstructionType.MOV, [⟨OperandType.register, "%eax"⟩, ⟨OperandType.immediate, "1"⟩], ""⟩,
   ⟨InstructionType.RET, [], "foo"⟩]

/-- C5 counterexample: on a stream whose first instruction is unlabelled,
the implicitly opened function `main` gets an entry block named `main`,
not `entry`; and `foo` — the first label encountered in the stream — opens
a basic block, not a function, because the implicit `main` has already
cleared `isFirstLabel`.  Both parts contradict the claim as stated. -/
theorem first_label_after_implicit_main_is_a_block :
    discoverEvents exDiscovery =
      [some (DiscoveryEvent.newFunction "main" "main"),
       some (DiscoveryEvent.newBlock "foo")] ∧
    firstLabelIdx exDiscovery = some 1 ∧
    ("main" : String) ≠ "entry" := by decide

/-- C5 (amended): a label starts a new function exactly when it equals
`main` or `start`, appears as the label operand of a single-operand CALL,
or is attached to the very first instruction of the stream; every other
label opens a basic block; when a label starts a function its entry block
bears the label's own name; and if the first instruction is unlabelled the
lifter implicitly opens function `main` with an entry block named
`main`. -/
theorem discovery_policy (instrs : List Instruction) (i : Nat)
    (hi : i < instrs.length) :
    ((instrs[i].label ≠ "" →
      ((discoverEvents instrs)[i]? =
          some (some (DiscoveryEvent.newFunction instrs[i].label instrs[i].label)) ↔
        (instrs[i].label = "main" ∨ instrs[i].label = "start" ∨
          (callTargets instrs).contains instrs[i].label = true ∨ i = 0))) ∧
     (instrs[i].label ≠ "" →
      ¬(instrs[i].label = "main" ∨ instrs[i].label = "start" ∨
          (callTargets instrs).contains instrs[i].label = true ∨ i = 0) →
      (discoverEvents instrs)[i]? =
        some (some (DiscoveryEvent.newBlock instrs[i].label))) ∧
     (instrs[i].label = "" → i = 0 →
      (discoverEvents instrs)[i]? =
        some (some (DiscoveryEvent.newFunction "main" "main")))) := by
  rcases instrs with _ | ⟨a, rest⟩
  · exact absurd hi (by simp)
  · have hev : discoverEvents (a :: rest) =
        stepEvent (callTargets (a :: rest)) ⟨true, false⟩ a ::
          rest.map (stepEvent (callTargets (a :: rest)) ⟨false, true⟩) := by
      simp [discoverEvents, eventsFrom, nextState_init, eventsFrom_steady]
    rcases i with _ | j
    · refine ⟨?_, ?_, ?_⟩
      · intro hl
        have hl2 : a.label ≠ "" := by simpa using hl
        have hc : functionStartCond (callTargets (a :: rest)) true a.label = true := by
          simp [functionStartCond]
        simp [hev, stepEvent, hl2, hc]
      · intro hl hn
        exact absurd (Or.inr (Or.inr (Or.inr rfl))) hn
      · intro hl _
        have hl2 : a.label = "" := by simpa using hl
        simp [hev, stepEvent, hl2]
    · have hj : j < rest.length := by simpa using hi
      have hget : (a :: rest)[j + 1] = rest[j] := by simp
      have hev2 : (discoverEvents (a :: rest))[j + 1]? =
          some (stepEvent (callTargets (a :: rest)) ⟨false, true⟩ rest[j]) := by
        simp [hev, List.getElem?_map, List.getElem?_eq_getElem hj]
      refine ⟨?_, ?_, ?_⟩
      · intro hl
        rw [hget] at hl ⊢
        rw [hev2]
        by_cases hc : functionStartCond (callTargets (a :: rest)) false rest[j].label = true
        · simp only [stepEvent, if_pos hl, if_pos hc, Option.some_inj]
          simp only [functionStartCond, Bool.or_eq_true, decide_eq_true_eq,
            Bool.or_false] at hc
          constructor
          · intro _
            tauto
          · intro _
            trivial
        · simp only [stepEvent, if_pos hl, if_neg hc, Option.some_inj]
          constructor
          · intro hfn
            exact absurd hfn (by simp)
          · intro hdisj
            exfalso
            apply hc
            simp only [functionStartCond, Bool.or_eq_true, decide_eq_true_eq, Bool.or_false]
            rcases hdisj with h1 | h1 | h1 | h1
            · tauto
            · tauto
            · tauto
            · exact absurd h1 (by omega)
      · intro hl hn
        rw [hget] at hl hn ⊢
        rw [hev2]
        have hc : ¬ functionStartCond (callTargets (a :: rest)) false rest[j].label = true := by
          intro hcc
          simp only [functionStartCond, Bool.or_eq_true, decide_eq_true_eq,
            Bool.or_false] at hcc
          apply hn
          tauto
        simp only [stepEvent, if_pos hl, if_neg hc]
      · intro _ h0
        exact absurd h0 (by omega)

/-- C5 witness: in the counterexample stream, the label `foo` (neither
`main`, `start`, a call sink, nor on the first instruction) opens a basic
block. -/
theorem discovery_policy_witness :
    (discoverEvents exDiscovery)[1]? =
      some (some (DiscoveryEvent.newBlock (exDiscovery[1]).label)) :=
  (discovery_policy exDiscovery 1 (by decide)).2.1 (by decide) (by decide)

theorem cmp_exec_flags (r1 r2 : String) (env : String → Int) (heap : Int → Int) :
    ((execOps ⟨env, heap, []⟩
        ([IROp.loadSlot r1, IROp.loadSlot r2] ++
          cmpSuffix (IRVal.ref 0) (IRVal.ref 1) 2)).slots "FLAG_ZF"
        = (if env r1 = env r2 then 1 else 0)) ∧
    ((execOps ⟨env, heap, []⟩
        ([IROp.loadSlot r1, IROp.loadSlot r2] ++
          cmpSuffix (IRVal.ref 0) (IRVal.ref 1) 2)).slots "FLAG_LT"
        = (if env r1 < env r2 then 1 else 0)) ∧
    ((execOps ⟨env, heap, []⟩
        ([IROp.loadSlot r1, IROp.loadSlot r2] ++
          cmpSuffix (IRVal.ref 0) (IRVal.ref 1) 2)).slots "FLAG_GT"
        = (if env r2 < env r1 then 1 else 0)) ∧
    ((execOps ⟨env, heap, []⟩
        ([IROp.loadSlot r1, IROp.loadSlot r2] ++
          cmpSuffix (IRVal.ref 0) (IRVal.ref 1) 2)).slots "FLAG_LE"
        = (if env r1 ≤ env r2 then 1 else 0)) ∧
    ((execOps ⟨env, heap, []⟩
        ([IROp.loadSlot r1, IROp.loadSlot r2] ++
          cmpSuffix (IRVal.ref 0) (IRVal.ref 1) 2)).slots "FLAG_GE"
        = (if env r2 ≤ env r1 then 1 else 0)) := by
  simp [cmpSuffix, execOps, execOp, evalIRVal, evalPred, List.getD]

/-- C6: a CMP whose two operands evaluate successfully appends exactly the
fifteen operations of `cmpSuffix`: the five signed comparisons EQ, SLT,
SGT, SLE, SGE of the operand values, a 32-bit zero-extension of each 1-bit
result, and stores into the slots FLAG_ZF, FLAG_LT, FLAG_GT, FLAG_LE,
FLAG_GE respectively; moreover, for register operands, executing the
emitted stream leaves each flag slot holding the value of its predicate on
the two register values. -/
theorem cmp_sets_five_flags (st stL stR : BuilderState) (o1 o2 : Operand)
    (lbl : String) (l r : IRVal)
    (h1 : getOperandValue st o1 = ValueResult.ok stL l)
    (h2 : getOperandValue stL o2 = ValueResult.ok stR r)
    (r1 r2 : String) (env : String → Int) (heap : Int → Int) :
    ((liftCompareInstruction st ⟨InstructionType.CMP, [o1, o2], lbl⟩).opsOf =
        some (stR.ops ++ cmpSuffix l r stR.ops.length)) ∧
    ((liftCompareInstruction st0
        ⟨InstructionType.CMP,
          [⟨OperandType.register, r1⟩, ⟨OperandType.register, r2⟩], lbl⟩).opsOf =
        some ([IROp.loadSlot r1, IROp.loadSlot r2] ++
          cmpSuffix (IRVal.ref 0) (IRVal.ref 1) 2)) ∧
    (((execOps ⟨env, heap, []⟩
        ([IROp.loadSlot r1, IROp.loadSlot r2] ++
          cmpSuffix (IRVal.ref 0) (IRVal.ref 1) 2)).slots "FLAG_ZF"
        = (if env r1 = env r2 then 1 else 0)) ∧
    ((execOps ⟨env, heap, []⟩
        ([IROp.loadSlot r1, IROp.loadSlot r2] ++
          cmpSuffix (IRVal.ref 0) (IRVal.ref 1) 2)).slots "FLAG_LT"
        = (if env r1 < env r2 then 1 else 0)) ∧
    ((execOps ⟨env, heap, []⟩
        ([IROp.loadSlot r1, IROp.loadSlot r2] ++
          cmpSuffix (IRVal.ref 0) (IRVal.ref 1) 2)).slots "FLAG_GT"
        = (if env r2 < env r1 then 1 else 0)) ∧
    ((execOps ⟨env, heap, []⟩
        ([IROp.loadSlot r1, IROp.loadSlot r2] ++
          cmpSuffix (IRVal.ref 0) (IRVal.ref 1) 2)).slots "FLAG_LE"
        = (if env r1 ≤ env r2 then 1 else 0)) ∧
    ((execOps ⟨env, heap, []⟩
        ([IROp.loadSlot r1, IROp.loadSlot r2] ++
          cmpSuffix (IRVal.ref 0) (IRVal.ref 1) 2)).slots "FLAG_GE"
        = (if env r2 ≤ env r1 then 1 else 0))) := by
  refine ⟨?_, ?_, cmp_exec_flags r1 r2 env heap⟩
  · simp_arith [liftCompareInstruction, h1, h2, LiftResult.opsOf, cmpSuffix]
  · simp_arith [liftCompareInstruction, getOperandValue, LiftResult.opsOf, cmpSuffix, st0]

/-- C6 witness: comparing `%eax` with `%ebx` from a fresh builder emits the
two loads followed by the fifteen flag operations. -/
theorem cmp_sets_five_flags_witness :
    (liftCompareInstruction st0
        ⟨InstructionType.CMP,
          [⟨OperandType.register, "%eax"⟩, ⟨OperandType.register, "%ebx"⟩], ""⟩).opsOf =
      some ([IROp.loadSlot "%eax", IROp.loadSlot "%ebx"] ++
        cmpSuffix (IRVal.ref 0) (IRVal.ref 1) 2) :=
  (cmp_sets_five_flags st0
    ⟨[IROp.loadSlot "%eax"], ["%eax"], [], 0, "main"⟩
    ⟨[IROp.loadSlot "%eax", IROp.loadSlot "%ebx"], ["%eax", "%ebx"], [], 0, "main"⟩
    ⟨OperandType.register, "%eax"⟩ ⟨OperandType.register, "%ebx"⟩ ""
    (IRVal.ref 0) (IRVal.ref 1) (by decide) (by decide)
    "%eax" "%ebx" (fun _ => 0) (fun _ => 0)).2.1

end Asm2Wasm
